/- A verification development for the destination-driven Z80 code generator
   in `src/compiler/ddcg-test/z80/compile.py`.

   The generator is embedded shallowly:
   * AST nodes of the external s-expression parser become `SExpr`
     (an atom carries its text; `nil` is the distinguished list terminator);
     attribute access `.car` / `.cdr` on a non-pair raises, so the accessors
     return `Except`.
   * The `Compiler` object's mutable fields (`assembly_listing`, `globals`,
     `next_label`) become the record `CState`.  Every `cg_*` method becomes a
     function `CState → Except String CState`; a raised Python exception is
     the `.error` case.
   * The mutually recursive methods are interpreted by the fuel-indexed
     function `run` over the call descriptor type `Call`; recursion is
     structural on the fuel, so closed runs evaluate inside the kernel.
     Python's recursion is unbounded; exhausting the fuel yields an error
     that stands for `RecursionError` and is never hit by the concrete runs
     below.
   * Python's arbitrary-precision `int` is `Int`; the destination constants
     `DD_*` keep their integer values (as `Nat`), and control destinations
     (ints or 2-tuples of ints in the source) become the sum `Cd`. -/
import Mathlib

set_option maxRecDepth 8000

/-- AST node shape delivered by the external s-expression parser:
an atomic token, the distinguished `nil`, or a cons pair. -/
inductive SExpr where
  | atom (t : String)
  | nil
  | pair (car cdr : SExpr)
deriving DecidableEq, Repr

/-- `node.car`; Python raises `AttributeError` when `node` is not a `Pair`. -/
def SExpr.car : SExpr → Except String SExpr
  | .pair a _ => .ok a
  | _ => .error ("AttributeError: object has no attribute car")

/-- `node.cdr`; Python raises `AttributeError` when `node` is not a `Pair`. -/
def SExpr.cdr : SExpr → Except String SExpr
  | .pair _ d => .ok d
  | _ => .error ("AttributeError: object has no attribute cdr")

/-- `is_pair` from the source: `isinstance(node, Pair)`. -/
def is_pair : SExpr → Bool
  | .pair _ _ => true
  | _ => false

/-- Rendering used where the source formats a node into an error message or
an operand.  For an atom this is the token text, as in Python; the reprs of
the parser's `Pair`/`nil` objects are abbreviated (no claim depends on them). -/
def pyShow : SExpr → String
  | .atom t => t
  | .nil => "nil"
  | .pair _ _ => "<pair>"

/-- `starts_with_decimal_digit`: `'0' <= t[0] <= '9'`.  The callers guard the
empty-token case (Python's `t[0]` would raise `IndexError`; the dispatcher
below raises it explicitly before consulting this predicate). -/
def starts_with_decimal_digit (t : String) : Bool :=
  match t.data with
  | c :: _ => decide ('0' ≤ c) && decide (c ≤ '9')
  | [] => false

/-- Value of one digit character under base `b`, as accepted by Python's
`int(·, b)` (decimal digits, then case-insensitive letters). -/
def digit_value (b : Nat) (c : Char) : Option Nat :=
  let v : Option Nat :=
    if decide ('0' ≤ c) && decide (c ≤ '9') then some (c.toNat - '0'.toNat)
    else if decide ('a' ≤ c) && decide (c ≤ 'z') then some (c.toNat - 'a'.toNat + 10)
    else if decide ('A' ≤ c) && decide (c ≤ 'Z') then some (c.toNat - 'A'.toNat + 10)
    else none
  match v with
  | some v => if v < b then some v else none
  | none => none

/-- Digit run after the first digit: Python allows single underscores
between digits (`1_2`), and nothing else. -/
def pyDigitsAux (b : Nat) : List Char → Nat → Option Nat
  | [], acc => some acc
  | '_' :: c :: cs, acc =>
    match digit_value b c with
    | some v => pyDigitsAux b cs (acc * b + v)
    | none => none
  | c :: cs, acc =>
    match digit_value b c with
    | some v => pyDigitsAux b cs (acc * b + v)
    | none => none

/-- Python's `int(·, b)` also accepts the matching base prefix after the
sign for bases 16/8/2 (`int("0x1A", 16) = 26`), with one optional
underscore after the prefix; other bases take no prefix. -/
def pyStripBasePrefix (b : Nat) (cs : List Char) : List Char :=
  let strip (l u : Char) : List Char :=
    match cs with
    | '0' :: c :: rest =>
      if c = l ∨ c = u then
        match rest with
        | '_' :: r2 => r2
        | r => r
      else cs
    | _ => cs
  if b = 16 then strip 'x' 'X'
  else if b = 8 then strip 'o' 'O'
  else if b = 2 then strip 'b' 'B'
  else cs

/-- Python `int(s, b)` on the character list `s`: optional sign, optional
matching base prefix, then a nonempty digit run (single underscores allowed
between digits).  Tokens are whitespace-free, so the whitespace stripping
of Python's `int` is vacuous here and is not modelled. -/
def pyInt (b : Nat) (cs : List Char) : Except String Int :=
  let sgnBody : Int × List Char :=
    match cs with
    | '+' :: rest => (1, rest)
    | '-' :: rest => (-1, rest)
    | rest => (1, rest)
  match pyStripBasePrefix b sgnBody.2 with
  | c :: rest =>
    match digit_value b c with
    | some v =>
      match pyDigitsAux b rest v with
      | some n => .ok (sgnBody.1 * Int.ofNat n)
      | none => .error ("ValueError: invalid literal for int")
    | none => .error ("ValueError: invalid literal for int")
  | [] => .error ("ValueError: invalid literal for int")

/-- `to_number` from the source.  Note its Python quirk: when the token
starts with neither `0` nor `1`-`9`, no branch of the `if`/`elif` fires and
the function implicitly returns `None` — hence the result type
`Option Int` inside `Except` (`.ok none` is that implicit `None`). -/
def to_number (t : String) : Except String (Option Int) :=
  match t.data with
  | [] => .error ("to_number called with empty token")
  | c0 :: rest =>
    if c0 = '0' then
      if 3 ≤ t.length then
        match rest with
        | c1 :: rest2 =>
          if c1 = 'x' ∨ c1 = 'X' then (pyInt 16 rest2).map some
          else if c1 = 'o' ∨ c1 = 'O' then (pyInt 8 rest2).map some
          else if c1 = 'b' ∨ c1 = 'B' then (pyInt 2 rest2).map some
          else (pyInt 8 t.data).map some
        | [] => (pyInt 8 t.data).map some
      else (pyInt 8 t.data).map some
    else if decide ('1' ≤ c0) && decide (c0 ≤ '9') then (pyInt 10 t.data).map some
    else .ok none

/-- How Python's `"{}".format` renders the value `to_number` produced at the
numeric-literal site: an `int`, or the (there unreachable) `None`. -/
def pyShowOptInt : Option Int → String
  | some v => toString v
  | none => "None"

-- Data destinations (module-level integer constants in the source).
def DD_A : Nat := 0
def DD_BC : Nat := 1
def DD_DE : Nat := 2
def DD_HL : Nat := 3
def DD_TMP : Nat := 4
def DD_ZFLAG : Nat := 5
def DD_B : Nat := 6

/-- Sentinel: control destinations `>= CD_LABEL` are local labels. -/
def CD_LABEL : Int := 100

/-- A control destination is an integer (`CD_RET = 0`, `CD_NEXT = 1`,
labels `>= 100`) or, as built by `cg_if`, a 2-tuple of such integers. -/
inductive Cd where
  | num (n : Int)
  | branch (t f : Int)
deriving DecidableEq, Repr

def CD_RET : Cd := .num 0
def CD_NEXT : Cd := .num 1

/-- The compiler's mutable state: the emitted listing, the symbol table and
the label counter. -/
structure CState where
  assembly_listing : List String
  globals : List String
  next_label : Int
deriving DecidableEq, Repr

/-- State after `Compiler.__init__` plus `main`'s reset of the listing. -/
def initial_state : CState :=
  { assembly_listing := [], globals := [], next_label := CD_LABEL - 1 }

def emit_line (s : CState) (line : String) : CState :=
  { s with assembly_listing := s.assembly_listing ++ [line] }

/-- Python's `"{:6}".format(mnem)`: left-justify in six columns. -/
def padRight6 (t : String) : String :=
  t ++ String.mk (List.replicate (6 - t.length) ' ')

/-- The `label` argument of `asm` / `cg_emit_label`: `None`, a generated
integer label, or a symbol name. -/
inductive PyLabel where
  | none
  | int (n : Int)
  | str (t : String)
deriving DecidableEq, Repr

/-- `cg_emit_label`: ints render as `L<id>`, then the line is `<label>:`. -/
def cg_emit_label : PyLabel → CState → CState
  | .none, s => s
  | .int n, s => emit_line s ("L" ++ toString n ++ ":")
  | .str t, s => emit_line s (t ++ ":")

/-- `asm`: optional label line, then `␣␣␣␣MNEMONIC␣OPERAND`
(`None` operand renders as the empty string). -/
def asm (lab : PyLabel) (mnem : String) (oper : Option String) (s : CState) : CState :=
  let s := cg_emit_label lab s
  emit_line s ("    " ++ padRight6 mnem ++ " " ++ (oper.getD ("")))

def make_label (s : CState) : Int × CState :=
  let n := s.next_label + 1
  (n, { s with next_label := n })

/-- `to_reg`: dictionary lookup; a destination outside the table is a
`KeyError`. -/
def to_reg (dd : Nat) : Except String String :=
  if dd = DD_A then .ok ("A")
  else if dd = DD_B then .ok ("B")
  else if dd = DD_BC then .ok ("BC")
  else if dd = DD_DE then .ok ("DE")
  else if dd = DD_HL then .ok ("HL")
  else .error ("KeyError: " ++ toString dd)

/-- Python string subscription `t[i]` (used as `dst[0]` / `dst[1]` on
register-pair names); out of range raises `IndexError`. -/
def strIdx (t : String) (i : Nat) : Except String Char :=
  match t.data.get? i with
  | some c => .ok c
  | none => .error ("IndexError: string index out of range")

def cg_push_hl (s : CState) : CState := asm .none ("PUSH") (some ("HL")) s
def cg_push_de (s : CState) : CState := asm .none ("PUSH") (some ("DE")) s
def cg_pop_de (s : CState) : CState := asm .none ("POP") (some ("DE")) s

/-- `cg_goto` on plain integer control destinations (the non-tuple arm). -/
def goto_num (n : Int) (s : CState) : Except String CState :=
  if n = 1 then pure s
  else if n = 0 then pure (asm .none ("RET") none s)
  else if CD_LABEL ≤ n then pure (asm .none ("JP") (some ("L" ++ toString n)) s)
  else .error ("Unknown control destination: " ++ toString n)

/-- `cg_goto`.  The tuple arm mirrors the source's nested `if`s, including
the silent fall-through when the true branch is neither `CD_NEXT` nor
`CD_RET` (the source has no `else` there); the source's recursive calls
`cg_goto(CD_RET)` / `cg_goto(false_branch)` are `goto_num`. -/
def cg_goto : Cd → CState → Except String CState
  | .branch t f, s =>
    if t = 1 then
      if f = 1 then pure s
      else if f = 0 then pure (asm .none ("RET") (some ("Z")) s)
      else pure (asm .none ("JP") (some ("Z,L" ++ toString f)) s)
    else if t = 0 then
      if f = 1 then pure (asm .none ("RET") (some ("NZ")) s)
      else if f = 0 then goto_num 0 s
      else goto_num f (asm .none ("RET") (some ("NZ")) s)
    else pure s
  | .num n, s => goto_num n s

/-- `cg_ld16`: the operand `n` arrives already formatted (the source passes
ints or symbol names through `"{},{}".format`). -/
def cg_ld16 (dd : Nat) (n : String) (s : CState) : Except String CState := do
  let r ← to_reg dd
  pure (asm .none ("LD") (some (r ++ "," ++ n)) s)

/-- `cg_ld16_gv`.  For `dd = DD_B` the source recurses once with `DD_A`
(and `to_reg DD_A` is `A`); that single level is inlined here. -/
def cg_ld16_gv (dd : Nat) (t : String) (s : CState) : Except String CState :=
  if dd = DD_B then
    pure (asm .none ("LD") (some ("B,A"))
      (asm .none ("LD") (some ("A,(" ++ t ++ ")")) s))
  else do
    let r ← to_reg dd
    pure (asm .none ("LD") (some (r ++ ",(" ++ t ++ ")")) s)

/-- `cg_op_pair`: low-to-low then high-to-high through the register-pair
names' characters. -/
def cg_op_pair (op1 op2 : String) (dd ds : Nat) (s : CState) : Except String CState := do
  let src ← to_reg ds
  let dst ← to_reg dd
  let d1 ← strIdx dst 1
  let s1 ← strIdx src 1
  let s := asm .none op1 (some (String.mk [d1] ++ "," ++ String.mk [s1])) s
  let d0 ← strIdx dst 0
  let s0 ← strIdx src 0
  pure (asm .none op2 (some (String.mk [d0] ++ "," ++ String.mk [s0])) s)

def cg_ld16_r16 (dd ds : Nat) (s : CState) : Except String CState :=
  if ds = dd then pure s
  else if dd ≠ DD_A then cg_op_pair ("LD") ("LD") dd ds s
  else do
    let src ← to_reg ds
    let c1 ← strIdx src 1
    pure (asm .none ("LD") (some ("A," ++ String.mk [c1])) s)

/-- `cg_op16`: the byte-wise 16-bit ALU pattern.  The trailing
`cg_goto cd` is at method level in the source (it runs in the `dd = DD_A`
case too). -/
def cg_op16 (dd ds1 ds2 : Nat) (cd : Cd) (op1 op2 : String) (s : CState) :
    Except String CState := do
  let r1 ← to_reg ds1
  let l1 ← strIdx r1 1
  let s := asm .none ("LD") (some ("A," ++ String.mk [l1])) s
  let r2 ← to_reg ds2
  let l2 ← strIdx r2 1
  let s := asm .none op1 (some ("A," ++ String.mk [l2])) s
  let s ←
    if dd ≠ DD_A then do
      let rd ← to_reg dd
      let dl ← strIdx rd 1
      let s := asm .none ("LD") (some (String.mk [dl] ++ ",A")) s
      let h1 ← strIdx r1 0
      let s := asm .none ("LD") (some ("A," ++ String.mk [h1])) s
      let h2 ← strIdx r2 0
      let s := asm .none op2 (some ("A," ++ String.mk [h2])) s
      let dh ← strIdx rd 0
      pure (asm .none ("LD") (some (String.mk [dh] ++ ",A")) s)
    else pure s
  cg_goto cd s

/-- `cg_add`, with the local `do_add` inlined.  Note the source emits
`cg_goto cd` here *in addition to* the one inside `cg_op16` on the
fall-through path. -/
def cg_add (dd ds1 ds2 : Nat) (cd : Cd) (s : CState) : Except String CState := do
  let s ←
    if dd = DD_HL ∧ ds2 = DD_HL then do
      -- do_add dd ds2 ds1: d = a = DD_HL, single-instruction path, b = ds1
      let r ← to_reg ds1
      pure (asm .none ("ADD") (some ("HL," ++ r)) s)
    else if dd = DD_HL ∧ ds1 = DD_HL then do
      -- do_add dd ds1 ds2 taking the single-instruction path, b = ds2
      let r ← to_reg ds2
      pure (asm .none ("ADD") (some ("HL," ++ r)) s)
    else
      cg_op16 dd ds1 ds2 cd ("ADD") ("ADC") s
  cg_goto cd s

def cg_subtract (dd ds1 ds2 : Nat) (cd : Cd) (s : CState) : Except String CState :=
  cg_op16 dd ds1 ds2 cd ("SUB") ("SBC") s

def cg_bit_and (dd ds1 ds2 : Nat) (cd : Cd) (s : CState) : Except String CState :=
  cg_op16 dd ds1 ds2 cd ("AND") ("AND") s

def cg_bit_or (dd ds1 ds2 : Nat) (cd : Cd) (s : CState) : Except String CState :=
  cg_op16 dd ds1 ds2 cd ("OR") ("OR") s

def cg_bit_xor (dd ds1 ds2 : Nat) (cd : Cd) (s : CState) : Except String CState :=
  cg_op16 dd ds1 ds2 cd ("XOR") ("XOR") s

/-- `cg_call_libfn`: `CALL` plus realized `cd`, or a tail `JP` when
`cd = CD_RET`. -/
def cg_call_libfn (fn_name : String) (cd : Cd) (s : CState) : Except String CState :=
  if cd ≠ CD_RET then do
    let s := asm .none ("CALL") (some fn_name) s
    cg_goto cd s
  else pure (asm .none ("JP") (some fn_name) s)

def cg_divide (dd ds1 ds2 : Nat) (cd : Cd) (s : CState) : Except String CState := do
  let r1 ← to_reg ds1
  let r2 ← to_reg ds2
  let s ← cg_call_libfn ("divide_" ++ r1 ++ "_" ++ r2) cd s
  cg_ld16_r16 dd DD_HL s

def cg_multiply (dd ds1 ds2 : Nat) (cd : Cd) (s : CState) : Except String CState := do
  let r1 ← to_reg ds1
  let r2 ← to_reg ds2
  let s ← cg_call_libfn ("multiply_" ++ r1 ++ "_" ++ r2) cd s
  cg_ld16_r16 dd DD_HL s

/-- `cg_address_of`: `(@ VAR)`. -/
def cg_address_of (node : SExpr) (dd : Nat) (cd : Cd) (s : CState) :
    Except String CState := do
  let v ← node.cdr
  match v with
  | .nil => .error ("@ operator missing variable or procedure name")
  | _ => do
    let nm ← v.car
    match nm with
    | .atom t =>
      if t ∈ s.globals then do
        let s ← cg_ld16 dd t s
        cg_goto cd s
      else .error ("@ operator reference to undeclared variable or procedure: " ++ t)
    | other =>
      -- a non-atom name is never in the (string) symbol table
      .error ("@ operator reference to undeclared variable or procedure: " ++ pyShow other)

/-- Loop body of `declare_variables`.  A non-atom in the variable list is
rejected here; Python would append the parser's `Pair` object itself to
`globals`, a state no modelled program reaches. -/
def declare_variables_loop : SExpr → CState → Except String CState
  | .nil, s => pure s
  | .pair v rest, s =>
    match v with
    | .atom nm =>
      if nm ∈ s.globals then .error ("Variable already defined: " ++ nm)
      else
        let s := { s with globals := s.globals ++ [nm] }
        let s := asm (.str nm) ("DEFW") (some ("0")) s
        declare_variables_loop rest s
    | _ => .error ("TypeError: non-atom variable name")
  | .atom _, _ => .error ("AttributeError: object has no attribute car")

/-- `declare_variables`: `(int16 NAME ...)`.  Note: no `cg_goto`, the form
ignores both destinations. -/
def declare_variables (node : SExpr) (s : CState) : Except String CState := do
  let varlist ← node.cdr
  declare_variables_loop varlist s

/-- `cg_shift_left`: `(<< EXPR COUNT)` — the source emits nothing but the
realization of `cd`. -/
def cg_shift_left (node : SExpr) (dd : Nat) (cd : Cd) (s : CState) :
    Except String CState :=
  cg_goto cd s

/-- Python's `for x in range(n)` loop in the unrolled shift: `n` pairs of
`SRL H` / `RL L`. -/
def emit_srl_rl : Nat → CState → CState
  | 0, s => s
  | k+1, s =>
    emit_srl_rl k (asm .none ("RL") (some ("L")) (asm .none ("SRL") (some ("H")) s))

/-- Tags for the seven binary-operator emitters `cg_binop` is handed. -/
inductive OpTag where
  | add | subtract | multiply | divide | bit_and | bit_or | bit_xor
deriving DecidableEq, Repr

def apply_op : OpTag → Nat → Nat → Nat → Cd → CState → Except String CState
  | .add => cg_add
  | .subtract => cg_subtract
  | .multiply => cg_multiply
  | .divide => cg_divide
  | .bit_and => cg_bit_and
  | .bit_or => cg_bit_or
  | .bit_xor => cg_bit_xor

/-- Call descriptors for the mutually recursive generator methods. -/
inductive Call where
  | form (node : SExpr) (dd : Nat) (cd : Cd)
  | binop (t : OpTag) (node : SExpr) (dd : Nat) (cd : Cd)
  | statements (node : SExpr) (dd : Nat) (cd : Cd)
  | sub (node : SExpr) (dd : Nat) (cd : Cd)
  | cond (node : SExpr) (dd : Nat) (cd : Cd)
  | set_var (node : SExpr) (dd : Nat) (cd : Cd)
  | shift_right_logical (node : SExpr) (dd : Nat) (cd : Cd)
  | highbyte (node : SExpr) (dd : Nat) (cd : Cd)
  | lowbyte (node : SExpr) (dd : Nat) (cd : Cd)
  | peek (node : SExpr) (dd : Nat) (cd : Cd)
  | poke (node : SExpr) (dd : Nat) (cd : Cd)
  | input (node : SExpr) (dd : Nat) (cd : Cd)
  | output (node : SExpr) (dd : Nat) (cd : Cd)

/-- The interpreter for the mutually recursive `cg_*` methods; each branch
is the body of the corresponding Python method, calling back into `run`
with one unit of fuel consumed.  `Call.cond` is `cg_if`. -/
def run : Nat → Call → CState → Except String CState
  | 0, _, _ => .error ("RecursionError: fuel exhausted")
  | f+1, c, s =>
    match c with
    | .form node dd cd =>
      if dd = DD_ZFLAG then do
        let s ← run f (.form node DD_HL CD_NEXT) s
        let s := asm .none ("LD") (some ("A,L")) s
        let s := asm .none ("OR") (some ("A,H")) s
        cg_goto cd s
      else
        match node with
        | .pair car cdr =>
          if car = .atom ("+") then run f (.binop .add node dd cd) s
          else if car = .atom ("-") then run f (.binop .subtract node dd cd) s
          else if car = .atom ("*") then run f (.binop .multiply node dd cd) s
          else if car = .atom ("/") then run f (.binop .divide node dd cd) s
          else if car = .atom ("&") then run f (.binop .bit_and node dd cd) s
          else if car = .atom ("|") then run f (.binop .bit_or node dd cd) s
          else if car = .atom ("^") then run f (.binop .bit_xor node dd cd) s
          else if car = .atom ("int16") then declare_variables node s
          else if car = .atom ("set") then run f (.set_var node dd cd) s
          else if car = .atom ("if") then run f (.cond node dd cd) s
          else if car = .atom ("sub") then run f (.sub node dd CD_RET) s
          else if car = .atom ("do") then run f (.statements cdr dd CD_RET) s
          else if car = .atom ("@") then cg_address_of node dd cd s
          else if car = .atom ("poke") then run f (.poke node dd cd) s
          else if car = .atom ("peek") then run f (.peek node dd cd) s
          else if car = .atom ("output") then run f (.output node dd cd) s
          else if car = .atom ("input") then run f (.input node dd cd) s
          else if car = .atom ("highbyte") then run f (.highbyte node dd cd) s
          else if car = .atom ("lowbyte") then run f (.lowbyte node dd cd) s
          else if car = .atom (">>") then run f (.shift_right_logical node dd cd) s
          else if car = .atom ("<<") then cg_shift_left node dd cd s
          else
            match car with
            | .atom t =>
              if t ∈ s.globals then
                if cdr ≠ .nil then
                  .error ("Arguments to subroutines not supported: " ++ t)
                else cg_call_libfn t cd s
              else .error ("Unsupported: " ++ t)
            | other => .error ("Unsupported: " ++ pyShow other)
        | .atom t =>
          match t.data with
          | [] => .error ("IndexError: string index out of range")
          | c0 :: _ =>
            if starts_with_decimal_digit t then do
              let n ← to_number t
              if dd ∈ [DD_A, DD_B, DD_BC, DD_DE, DD_HL] then do
                let s ← cg_ld16 dd (pyShowOptInt n) s
                cg_goto cd s
              else .error ("Unknown data destination: " ++ toString dd)
            else if c0 = '-' then do
              let m ← to_number (String.mk (t.data.drop 1))
              match m with
              | none => .error ("TypeError: bad operand type for unary minus: NoneType")
              | some v =>
                if dd ∈ [DD_A, DD_B, DD_BC, DD_DE, DD_HL] then do
                  let s ← cg_ld16 dd (toString (-v)) s
                  cg_goto cd s
                else .error ("Unknown data destination: " ++ toString dd)
            else
              if t ∈ s.globals then do
                let s ← cg_ld16_gv dd t s
                cg_goto cd s
              else .error ("Symbol not declared: " ++ t)
        | .nil => .error ("TypeError: nil object is not subscriptable")
    | .binop t node dd cd => do
      let d1 ← node.cdr
      let a ← d1.car
      if is_pair a then do
        let d2 ← d1.cdr
        let b ← d2.car
        let s ← run f (.form b DD_HL CD_NEXT) s
        let s := cg_push_hl s
        let s ← run f (.form a DD_HL CD_NEXT) s
        let s := cg_pop_de s
        apply_op t dd DD_HL DD_DE cd s
      else do
        let d2 ← d1.cdr
        let b ← d2.car
        let s ← run f (.form b DD_DE CD_NEXT) s
        let s ← run f (.form a DD_HL CD_NEXT) s
        apply_op t dd DD_HL DD_DE cd s
    | .statements node dd cd =>
      match node with
      | .nil => cg_goto cd s
      | .pair car cdr =>
        if cdr = .nil then
          -- last statement: the enclosing destinations, return handled
          run f (.form car dd cd) s
        else do
          let s ← run f (.form car DD_HL CD_NEXT) s
          run f (.statements cdr dd cd) s
      | .atom _ => .error ("AttributeError: object has no attribute cdr")
    | .sub node dd cd => do
      let d1 ← node.cdr
      let nm ← d1.car
      match nm with
      | .atom name =>
        if name ∈ s.globals then .error ("Symbol already defined: " ++ name)
        else do
          let s := { s with globals := s.globals ++ [name] }
          let s := cg_emit_label (.str name) s
          let stmts ← d1.cdr
          run f (.statements stmts dd cd) s
      | _ => .error ("TypeError: non-atom subroutine name")
    | .cond node dd cd => do
      let (label_false, s) := make_label s
      let (label_end, s) := make_label s
      let d1 ← node.cdr
      let pred ← d1.car
      let d2 ← d1.cdr
      let conseq ← d2.car
      let d3 ← d2.cdr
      match d3 with
      | .nil =>
        if cd ≠ CD_RET then do
          let s ← run f (.form pred DD_ZFLAG (.branch 1 label_false)) s
          let s ← run f (.form conseq DD_HL cd) s
          let s := cg_emit_label (.int label_false) s
          cg_goto cd s
        else do
          -- here cd = CD_RET, so the tuple (CD_NEXT, cd) is (1, 0)
          let s ← run f (.form pred DD_ZFLAG (.branch 1 0)) s
          run f (.form conseq DD_HL cd) s
      | _ => do
        let alter ← d3.car
        let s ← run f (.form pred DD_ZFLAG (.branch 1 label_false)) s
        let s ← run f (.form conseq DD_HL (.num label_end)) s
        let s := cg_emit_label (.int label_false) s
        let s ← run f (.form alter DD_HL CD_NEXT) s
        let s := cg_emit_label (.int label_end) s
        cg_goto cd s
    | .set_var node dd cd => do
      let d1 ← node.cdr
      let v ← d1.car
      let d2 ← d1.cdr
      let e ← d2.car
      match v with
      | .atom vt => do
        let s ← run f (.form e DD_HL CD_NEXT) s
        let s := asm .none ("LD") (some ("(" ++ vt ++ "),HL")) s
        let s ← cg_ld16_r16 dd DD_HL s
        cg_goto cd s
      | _ => .error ("TypeError: non-atom assignment target")
    | .shift_right_logical node dd cd => do
      let d1 ← node.cdr
      let e ← d1.car
      let d2 ← d1.cdr
      let cnt ← d2.car
      let n_cnt : Option Int ←
        match cnt with
        | .atom t =>
          if t.data = [] then .error ("IndexError: string index out of range")
          else if starts_with_decimal_digit t then to_number t
          else pure Option.none
        | _ => .error ("TypeError: object is not subscriptable")
      let s ← run f (.form e DD_HL CD_NEXT) s
      let s ←
        match n_cnt with
        | none => do
          -- do_variable_shift with the zero-guard
          let (loopback, s) := make_label s
          let s ← run f (.form cnt DD_B CD_NEXT) s
          let (skipahead, s) := make_label s
          let s := asm .none ("LD") (some ("A,B")) s
          let s := asm .none ("OR") (some ("A,A")) s
          let s := asm .none ("JZ") (some ("L" ++ toString skipahead)) s
          let s := asm (.int loopback) ("SRL") (some ("H")) s
          let s := asm .none ("RL") (some ("L")) s
          let s := asm .none ("DJNZ") (some ("L" ++ toString loopback)) s
          pure (cg_emit_label (.int skipahead) s)
        | some n =>
          if n > 4 then do
            -- do_variable_shift, no guard (count known non-zero)
            let (loopback, s) := make_label s
            let s ← run f (.form cnt DD_B CD_NEXT) s
            let s := asm (.int loopback) ("SRL") (some ("H")) s
            let s := asm .none ("RL") (some ("L")) s
            pure (asm .none ("DJNZ") (some ("L" ++ toString loopback)) s)
          else pure (emit_srl_rl n.toNat s)
      cg_goto cd s
    | .highbyte node dd cd => do
      let d1 ← node.cdr
      let e ← d1.car
      let s ← run f (.form e DD_HL CD_NEXT) s
      let s := asm .none ("LD") (some ("L,H")) s
      let s := asm .none ("LD") (some ("H,0")) s
      cg_goto cd s
    | .lowbyte node dd cd => do
      let d1 ← node.cdr
      let e ← d1.car
      let s ← run f (.form e DD_HL CD_NEXT) s
      let s := asm .none ("LD") (some ("H,0")) s
      cg_goto cd s
    | .peek node dd cd => do
      let d1 ← node.cdr
      let sz ← d1.car
      let d2 ← d1.cdr
      let addr ← d2.car
      let s ←
        if sz = .atom ("byte") then do
          let dst ← to_reg dd
          let s ← run f (.form addr DD_HL CD_NEXT) s
          if dd = DD_A then pure (asm .none ("LD") (some ("A,(HL)")) s)
          else do
            let c1 ← strIdx dst 1
            let s := asm .none ("LD") (some (String.mk [c1] ++ ",(HL)")) s
            let c0 ← strIdx dst 0
            pure (asm .none ("LD") (some (String.mk [c0] ++ ",0")) s)
        else if sz = .atom ("word") then do
          let dst ← to_reg dd
          let srcS ←
            if dd = DD_HL then do
              let s ← run f (.form addr DD_DE CD_NEXT) s
              pure (("DE" : String), s)
            else do
              let s ← run f (.form addr DD_HL CD_NEXT) s
              pure (("HL" : String), s)
          let src := srcS.1
          let s := srcS.2
          if dd = DD_A then pure (asm .none ("LD") (some ("A,(" ++ src ++ ")")) s)
          else do
            let c1 ← strIdx dst 1
            let s := asm .none ("LD") (some (String.mk [c1] ++ ",(" ++ src ++ ")")) s
            let s := asm .none ("INC") (some src) s
            let c0 ← strIdx dst 0
            pure (asm .none ("LD") (some (String.mk [c0] ++ ",(" ++ src ++ ")")) s)
        else .error ("Unsupported poke size: " ++ pyShow sz)
      cg_goto cd s
    | .poke node dd cd => do
      let d1 ← node.cdr
      let sz ← d1.car
      let d2 ← d1.cdr
      let addr ← d2.car
      let d3 ← d2.cdr
      let datum ← d3.car
      if sz = .atom ("byte") then do
        let s ← run f (.form addr DD_HL CD_NEXT) s
        let s ← run f (.form datum DD_A CD_NEXT) s
        let s := asm .none ("LD") (some ("(HL),A")) s
        cg_goto cd s
      else if sz = .atom ("word") then do
        let s ←
          if !is_pair addr then do
            let s ← run f (.form datum DD_DE CD_NEXT) s
            run f (.form addr DD_HL CD_NEXT) s
          else do
            let s ← run f (.form datum DD_HL CD_NEXT) s
            let s := cg_push_hl s
            let s ← run f (.form addr DD_HL CD_NEXT) s
            pure (cg_pop_de s)
        let s := asm .none ("LD") (some ("A,E")) s
        let s := asm .none ("LD") (some ("(HL),A")) s
        let s := asm .none ("INC") (some ("HL")) s
        let s := asm .none ("LD") (some ("A,D")) s
        let s := asm .none ("LD") (some ("(HL),A")) s
        cg_goto cd s
      else .error ("Unsupported poke size: " ++ pyShow sz)
    | .input node dd cd => do
      let d1 ← node.cdr
      let sz ← d1.car
      let d2 ← d1.cdr
      let addr ← d2.car
      let s ←
        if sz = .atom ("byte") then do
          let dst ← to_reg dd
          let s ← run f (.form addr DD_BC CD_NEXT) s
          if dd = DD_A then pure (asm .none ("IN") (some ("A,(C)")) s)
          else do
            let s := asm .none ("IN") (some ("A,(C)")) s
            let c1 ← strIdx dst 1
            let s := asm .none ("LD") (some (String.mk [c1] ++ ",A")) s
            let c0 ← strIdx dst 0
            pure (asm .none ("LD") (some (String.mk [c0] ++ ",0")) s)
        else if sz = .atom ("word") then do
          let dst ← to_reg dd
          let s ←
            if dd = DD_BC then do
              let s ← run f (.input node DD_HL CD_NEXT) s
              let s := asm .none ("LD") (some ("B,H")) s
              let s := asm .none ("LD") (some ("C,L")) s
              cg_goto cd s
            else
              run f (.form addr DD_BC CD_NEXT) s
          if dd = DD_A then pure (asm .none ("IN") (some ("A,(C)")) s)
          else do
            let s := asm .none ("IN") (some ("A,(C)")) s
            let c1 ← strIdx dst 1
            let s := asm .none ("LD") (some (String.mk [c1] ++ ",A")) s
            let s := asm .none ("INC") (some ("BC")) s
            let s := asm .none ("IN") (some ("A,(C)")) s
            let c0 ← strIdx dst 0
            pure (asm .none ("LD") (some (String.mk [c0] ++ ",A")) s)
        else .error ("Unsupported poke size: " ++ pyShow sz)
      cg_goto cd s
    | .output node dd cd => do
      let d1 ← node.cdr
      let sz ← d1.car
      let d2 ← d1.cdr
      let addr ← d2.car
      let d3 ← d2.cdr
      let datum ← d3.car
      if sz = .atom ("byte") then do
        let s ← run f (.form addr DD_BC CD_NEXT) s
        let s ← run f (.form datum DD_A CD_NEXT) s
        let s := asm .none ("OUT") (some ("(C),A")) s
        cg_goto cd s
      else if sz = .atom ("word") then do
        let s ←
          if !is_pair addr then do
            let s ← run f (.form datum DD_DE CD_NEXT) s
            run f (.form addr DD_BC CD_NEXT) s
          else do
            let s ← run f (.form datum DD_HL CD_NEXT) s
            let s := cg_push_hl s
            let s ← run f (.form addr DD_BC CD_NEXT) s
            pure (cg_pop_de s)
        let s := asm .none ("LD") (some ("A,E")) s
        let s := asm .none ("OUT") (some ("(C),A")) s
        let s := asm .none ("INC") (some ("BC")) s
        let s := asm .none ("LD") (some ("A,D")) s
        let s := asm .none ("OUT") (some ("(C),A")) s
        cg_goto cd s
      else .error ("Unsupported poke size: " ++ pyShow sz)

/-- `Compiler.cg_form`. -/
def cg_form (fuel : Nat) (node : SExpr) (dd : Nat) (cd : Cd) (s : CState) :
    Except String CState :=
  run fuel (.form node dd cd) s

/-- `Compiler.cg_binop`, with the operator-emitter argument as a tag. -/
def cg_binop (fuel : Nat) (t : OpTag) (node : SExpr) (dd : Nat) (cd : Cd) (s : CState) :
    Except String CState :=
  run fuel (.binop t node dd cd) s

/-- `Compiler.cg_statements`. -/
def cg_statements (fuel : Nat) (node : SExpr) (dd : Nat) (cd : Cd) (s : CState) :
    Except String CState :=
  run fuel (.statements node dd cd) s

/-- `Compiler.cg_sub`. -/
def cg_sub (fuel : Nat) (node : SExpr) (dd : Nat) (cd : Cd) (s : CState) :
    Except String CState :=
  run fuel (.sub node dd cd) s

/-- `Compiler.cg_if`. -/
def cg_if (fuel : Nat) (node : SExpr) (dd : Nat) (cd : Cd) (s : CState) :
    Except String CState :=
  run fuel (.cond node dd cd) s

/-- `Compiler.cg_set_var`. -/
def cg_set_var (fuel : Nat) (node : SExpr) (dd : Nat) (cd : Cd) (s : CState) :
    Except String CState :=
  run fuel (.set_var node dd cd) s

/-- `Compiler.cg_shift_right_logical`. -/
def cg_shift_right_logical (fuel : Nat) (node : SExpr) (dd : Nat) (cd : Cd) (s : CState) :
    Except String CState :=
  run fuel (.shift_right_logical node dd cd) s

/-- `Compiler.cg_highbyte`. -/
def cg_highbyte (fuel : Nat) (node : SExpr) (dd : Nat) (cd : Cd) (s : CState) :
    Except String CState :=
  run fuel (.highbyte node dd cd) s

/-- `Compiler.cg_lowbyte`. -/
def cg_lowbyte (fuel : Nat) (node : SExpr) (dd : Nat) (cd : Cd) (s : CState) :
    Except String CState :=
  run fuel (.lowbyte node dd cd) s

/-- `Compiler.cg_peek`. -/
def cg_peek (fuel : Nat) (node : SExpr) (dd : Nat) (cd : Cd) (s : CState) :
    Except String CState :=
  run fuel (.peek node dd cd) s

/-- `Compiler.cg_poke`. -/
def cg_poke (fuel : Nat) (node : SExpr) (dd : Nat) (cd : Cd) (s : CState) :
    Except String CState :=
  run fuel (.poke node dd cd) s

/-- `Compiler.cg_input`. -/
def cg_input (fuel : Nat) (node : SExpr) (dd : Nat) (cd : Cd) (s : CState) :
    Except String CState :=
  run fuel (.input node dd cd) s

/-- `Compiler.cg_output`. -/
def cg_output (fuel : Nat) (node : SExpr) (dd : Nat) (cd : Cd) (s : CState) :
    Except String CState :=
  run fuel (.output node dd cd) s

/-- Proper-list constructor for building test forms. -/
def listS (xs : List SExpr) : SExpr := xs.foldr .pair .nil

/-- Decidable equality of generator results (both payloads already have it). -/
instance {ε α : Type} [DecidableEq ε] [DecidableEq α] : DecidableEq (Except ε α) := fun x y =>
  match x, y with
  | .ok a, .ok b =>
    if h : a = b then .isTrue (by rw [h]) else .isFalse (fun c => h (Except.ok.inj c))
  | .error e1, .error e2 =>
    if h : e1 = e2 then .isTrue (by rw [h]) else .isFalse (fun c => h (Except.error.inj c))
  | .ok _, .error _ => .isFalse (fun c => Except.noConfusion c)
  | .error _, .ok _ => .isFalse (fun c => Except.noConfusion c)

/-- Head token of each binary-operator form, as dispatched by `cg_form`. -/
def op_head : OpTag → String
  | .add => "+"
  | .subtract => "-"
  | .multiply => "*"
  | .divide => "/"
  | .bit_and => "&"
  | .bit_or => "|"
  | .bit_xor => "^"

/-- Modelled from the spec's words for comparison with `cg_statements`
(section 4.8 / claim C2): every child form but the last is generated with
`(dd = HL, cd = NEXT)`; the last is generated with the pair this function
received; an empty sequence just realizes `cd`.  Fuel is threaded exactly as
in the interpreter so the two sides align level by level. -/
def spec_do : Nat → List SExpr → Nat → Cd → CState → Except String CState
  | 0, _, _, _, _ => .error ("RecursionError: fuel exhausted")
  | _+1, [], _, cd, s => cg_goto cd s
  | f+1, [stmt], dd, cd, s => cg_form f stmt dd cd s
  | f+1, stmt :: rest, dd, cd, s =>
    (cg_form f stmt DD_HL CD_NEXT s).bind (spec_do f rest dd cd)

/-- The single top-level form of the spec's concrete scenario 1. -/
def c4_node : SExpr :=
  listS [.atom ("*"),
         listS [.atom ("/"),
                listS [.atom ("-"), .atom ("101"), .atom ("32")],
                .atom ("180")],
         .atom ("100")]

/-- The listing the generator produces for `c4_node` at `(dd=HL, cd=RET)`. -/
def c4_listing : List String :=
  ["    LD     HL,100", "    PUSH   HL", "    LD     HL,180", "    PUSH   HL",
   "    LD     DE,32", "    LD     HL,101", "    LD     A,L", "    SUB    A,E",
   "    LD     L,A", "    LD     A,H", "    SBC    A,D", "    LD     H,A",
   "    POP    DE", "    CALL   divide_HL_DE", "    POP    DE",
   "    JP     multiply_HL_DE"]

/-- The byte-wise subtraction sequence named by claim C4. -/
def c4_subtract_lines : List String :=
  ["    LD     A,L", "    SUB    A,E", "    LD     L,A",
   "    LD     A,H", "    SBC    A,D", "    LD     H,A"]

theorem bindE_ok {α β : Type} (a : α) (g : α → Except String β) :
    Bind.bind (Except.ok a) g = g a := rfl

theorem bindE_error {α β : Type} (e : String) (g : α → Except String β) :
    Bind.bind (Except.error e : Except String α) g = Except.error e := rfl

/-- C3: for every AST node and every control destination, generating with
`dd = ZFLAG` is precisely: generate the node into `HL` with `cd = NEXT`,
append `LD A,L` and `OR A,H`, then realize `cd` (`cg_goto`). -/
theorem cg_form_zflag_decomposition (fuel : Nat) (node : SExpr) (cd : Cd) (s : CState) :
    cg_form (fuel+1) node DD_ZFLAG cd s =
      (cg_form fuel node DD_HL CD_NEXT s).bind (fun s1 =>
        cg_goto cd (asm .none ("OR") (some ("A,H"))
          (asm .none ("LD") (some ("A,L")) s1))) := rfl

/-- C10: `cg_highbyte`, `cg_lowbyte` and `cg_shift_right_logical` never
consult the data destination: two runs that differ only in `dd` are equal
(state, listing and errors alike), and the emitted suffix of the byte
extractors is the fixed `HL`-resident sequence with no move into `dd`. -/
theorem byte_extract_shift_ignore_dd (fuel : Nat) (node : SExpr) (cd : Cd)
    (dd1 dd2 : Nat) (s : CState) :
    cg_highbyte fuel node dd1 cd s = cg_highbyte fuel node dd2 cd s ∧
    cg_lowbyte fuel node dd1 cd s = cg_lowbyte fuel node dd2 cd s ∧
    cg_shift_right_logical fuel node dd1 cd s = cg_shift_right_logical fuel node dd2 cd s ∧
    cg_highbyte (fuel+1) node dd1 cd s =
      (node.cdr.bind (fun d1 => d1.car)).bind (fun e =>
        (cg_form fuel e DD_HL CD_NEXT s).bind (fun s1 =>
          cg_goto cd (asm .none ("LD") (some ("H,0"))
            (asm .none ("LD") (some ("L,H")) s1)))) ∧
    cg_lowbyte (fuel+1) node dd1 cd s =
      (node.cdr.bind (fun d1 => d1.car)).bind (fun e =>
        (cg_form fuel e DD_HL CD_NEXT s).bind (fun s1 =>
          cg_goto cd (asm .none ("LD") (some ("H,0")) s1))) := by
  refine ⟨?_, ?_, ?_, ?_, ?_⟩
  · cases fuel <;> rfl
  · cases fuel <;> rfl
  · cases fuel <;> rfl
  · cases node <;> rfl
  · cases node <;> rfl

/-- C4: the spec's concrete scenario 1: `(* (/ (- 101 32) 180) 100)` at
`(dd=HL, cd=RET)` yields the recorded listing, which contains the six-line
byte-wise subtraction as a contiguous run, contains `CALL divide_HL_DE`,
and ends in `JP multiply_HL_DE`. -/
theorem binop_pipeline_concrete :
    cg_form 20 c4_node DD_HL CD_RET initial_state =
      .ok { assembly_listing := c4_listing, globals := [], next_label := 99 } ∧
    List.IsInfix c4_subtract_lines c4_listing ∧
    ("    CALL   divide_HL_DE") ∈ c4_listing ∧
    c4_listing.getLast? = some ("    JP     multiply_HL_DE") := by
  refine ⟨rfl, ⟨c4_listing.take 6, c4_listing.drop 12, by decide⟩, by decide, rfl⟩

/-- C8 counterexample: the very first label id the generator hands out (on
the freshly initialized state) is exactly `CD_LABEL = 100`, not strictly
greater than it as the claim states. -/
theorem make_label_first_id_cex :
    (make_label initial_state).1 = CD_LABEL ∧
    ¬ (CD_LABEL < (make_label initial_state).1) := by
  exact ⟨rfl, by decide⟩

/-- C8 (amended): label ids are at least `CD_LABEL` (the first one, from the
initial state, is exactly `CD_LABEL`), each call returns the incremented
counter, successive calls return strictly increasing values, and an emitted
integer label renders as `L<id>:`. -/
theorem make_label_amended (s : CState) (h : CD_LABEL - 1 ≤ s.next_label) :
    CD_LABEL ≤ (make_label s).1 ∧
    (make_label s).1 = s.next_label + 1 ∧
    (make_label ((make_label s).2)).1 = (make_label s).1 + 1 ∧
    (make_label s).1 < (make_label ((make_label s).2)).1 ∧
    (∀ n st, cg_emit_label (.int n) st =
      { st with assembly_listing := st.assembly_listing ++ ["L" ++ toString n ++ ":"] }) := by
  refine ⟨?_, rfl, rfl, ?_, fun n st => rfl⟩
  · simp only [make_label, CD_LABEL] at h ⊢
    omega
  · simp only [make_label]
    omega

/-- C8 witness: at the initial state the hypothesis holds and the amended
bound is attained with the first id equal to 100. -/
theorem make_label_amended_witness :
    CD_LABEL ≤ (make_label initial_state).1 ∧ (make_label initial_state).1 = 100 := by
  exact ⟨(make_label_amended initial_state (by decide)).1, rfl⟩

theorem swdd_true_ne_nil {t : String} (h : starts_with_decimal_digit t = true) :
    ¬ (t.data = []) := by
  intro hnil
  simp [starts_with_decimal_digit, hnil] at h

theorem string_ne_empty_data {t : String} (h : t ≠ "") : ¬ (t.data = []) := by
  intro hnil
  apply h
  cases t with
  | mk d => cases hnil; rfl

/-- C1 counterexample.  First: on `(+ 1 (+ 2 3))` — second operand a pair,
first an atom — the generator emits no `PUSH HL` at all, against the claim's
"when B is a pair … emits PUSH HL" (the source tests the *first* operand's
pairness).  Second: with `dd = ZFLAG` the generation of `(+ 1 2)` succeeds,
while the claimed realization — the emitter invoked with the caller's
`dd = ZFLAG` — dies on `to_reg` with a `KeyError`, so the emitter is *not*
invoked with the caller's `dd` there. -/
theorem cg_binop_first_operand_cex :
    cg_form 9 (listS [.atom ("+"), .atom ("1"),
        listS [.atom ("+"), .atom ("2"), .atom ("3")]]) DD_HL CD_NEXT initial_state =
      .ok { assembly_listing := ["    LD     DE,3", "    LD     HL,2", "    LD     A,L",
              "    ADD    A,E", "    LD     E,A", "    LD     A,H", "    ADC    A,D",
              "    LD     D,A", "    LD     HL,1", "    ADD    HL,DE"],
            globals := [], next_label := 99 } ∧
    ("    PUSH   HL") ∉ (["    LD     DE,3", "    LD     HL,2", "    LD     A,L",
              "    ADD    A,E", "    LD     E,A", "    LD     A,H", "    ADC    A,D",
              "    LD     D,A", "    LD     HL,1", "    ADD    HL,DE"] : List String) ∧
    cg_form 9 (listS [.atom ("+"), .atom ("1"), .atom ("2")]) DD_ZFLAG CD_NEXT initial_state =
      .ok { assembly_listing := ["    LD     DE,2", "    LD     HL,1", "    ADD    HL,DE",
              "    LD     A,L", "    OR     A,H"],
            globals := [], next_label := 99 } ∧
    ((cg_form 7 (.atom ("2")) DD_DE CD_NEXT initial_state).bind (fun s1 =>
      (cg_form 7 (.atom ("1")) DD_HL CD_NEXT s1).bind
        (cg_add DD_ZFLAG DD_HL DD_DE CD_NEXT))) =
      .error ("KeyError: 5") := by
  exact ⟨rfl, by decide, rfl, rfl⟩

/-- C1 (amended): for every binary-operator form `(op A B)` with
`dd ≠ ZFLAG`: when the *first* operand `A` is a pair the generator emits
B→HL, `PUSH HL`, A→HL, `POP DE`; when `A` is an atom it emits B→DE then
A→HL; in both cases the operator emitter is then invoked with sources
`(HL, DE)` and the `dd`, `cd` the dispatcher received. -/
theorem cg_binop_first_operand_shape (fuel : Nat) (t : OpTag) (A B : SExpr)
    (dd : Nat) (cd : Cd) (s : CState) (hdd : dd ≠ DD_ZFLAG) :
    cg_form (fuel+2) (listS [.atom (op_head t), A, B]) dd cd s =
      if is_pair A then
        (cg_form fuel B DD_HL CD_NEXT s).bind (fun s1 =>
          (cg_form fuel A DD_HL CD_NEXT (cg_push_hl s1)).bind (fun s2 =>
            apply_op t dd DD_HL DD_DE cd (cg_pop_de s2)))
      else
        (cg_form fuel B DD_DE CD_NEXT s).bind (fun s1 =>
          (cg_form fuel A DD_HL CD_NEXT s1).bind (apply_op t dd DD_HL DD_DE cd)) := by
  cases t <;> exact (if_neg hdd).trans rfl

/-- C1 witness: `(+ (+ 2 3) 1)` (compound first operand) at `(HL, NEXT)`
takes the push/pop path and produces the expected listing. -/
theorem cg_binop_first_operand_shape_witness :
    cg_form 6 (listS [.atom ("+"), listS [.atom ("+"), .atom ("2"), .atom ("3")],
        .atom ("1")]) DD_HL CD_NEXT initial_state =
      .ok { assembly_listing := ["    LD     HL,1", "    PUSH   HL", "    LD     DE,3",
              "    LD     HL,2", "    ADD    HL,DE", "    POP    DE", "    ADD    HL,DE"],
            globals := [], next_label := 99 } := by
  have h := cg_binop_first_operand_shape 4 OpTag.add
    (listS [.atom ("+"), .atom ("2"), .atom ("3")]) (.atom ("1"))
    DD_HL CD_NEXT initial_state (by decide)
  exact h.trans (by rfl)

/-- Statement lists: the interpreter's `cg_statements` agrees with the
spec-worded sequencing rule `spec_do` on every proper statement list. -/
theorem statements_eq_spec_do (stmts : List SExpr) :
    ∀ (fuel : Nat) (dd : Nat) (cd : Cd) (s : CState),
      cg_statements fuel (listS stmts) dd cd s = spec_do fuel stmts dd cd s := by
  induction stmts with
  | nil => intro fuel dd cd s; cases fuel <;> rfl
  | cons a rest ih =>
    intro fuel dd cd s
    cases fuel with
    | zero => rfl
    | succ f =>
      cases rest with
      | nil => rfl
      | cons b r =>
        show (cg_form f a DD_HL CD_NEXT s).bind
              (fun s1 => cg_statements f (listS (b :: r)) dd cd s1) =
            (cg_form f a DD_HL CD_NEXT s).bind (spec_do f (b :: r) dd cd)
        exact congrArg (fun g => (cg_form f a DD_HL CD_NEXT s).bind g)
          (funext fun s1 => ih f dd cd s1)

/-- C2 counterexample: `(do 5)` generated with the enclosing `cd = NEXT`
emits a `RET` for its last (only) statement — the claim says the last
statement inherits `cd = NEXT` and no `RET` is emitted. -/
theorem do_form_emits_ret_cex :
    cg_form 8 (.pair (.atom ("do")) (listS [.atom ("5")])) DD_HL CD_NEXT initial_state =
      .ok { assembly_listing := ["    LD     HL,5", "    RET    "],
            globals := [], next_label := 99 } ∧
    ("    RET    ") ∈ (["    LD     HL,5", "    RET    "] : List String) := by
  exact ⟨rfl, by decide⟩

/-- C2 (amended): a `(do S1 … Sn)` form hands `cg_statements` the enclosing
`dd` but always `CD_RET` (the dispatcher hardcodes it, discarding the
enclosing `cd`); within the sequence every statement but the last is
generated with `(HL, NEXT)` and the last with `(dd, RET)` — so a `do` under
`cd = NEXT` still emits a return path for its last statement. -/
theorem do_statement_distribution (fuel : Nat) (stmts : List SExpr) (dd : Nat)
    (cd : Cd) (s : CState) (hdd : dd ≠ DD_ZFLAG) :
    cg_form (fuel+1) (.pair (.atom ("do")) (listS stmts)) dd cd s =
      spec_do fuel stmts dd CD_RET s := by
  have h1 : cg_form (fuel+1) (.pair (.atom ("do")) (listS stmts)) dd cd s =
      cg_statements fuel (listS stmts) dd CD_RET s := (if_neg hdd).trans rfl
  rw [h1, statements_eq_spec_do]

/-- C2 witness: `(do 5)` under `(HL, NEXT)`, via the theorem, realizes
`CD_RET` after its last statement. -/
theorem do_statement_distribution_witness :
    cg_form 8 (.pair (.atom ("do")) (listS [.atom ("5")])) DD_HL CD_RET initial_state =
      .ok { assembly_listing := ["    LD     HL,5", "    RET    "],
            globals := [], next_label := 99 } := by
  have h := do_statement_distribution 7 [.atom ("5")] DD_HL CD_RET initial_state (by decide)
  exact h.trans (by rfl)

/-- C5 counterexample: the claim's "COUNT is not a literal → the DJNZ loop
form" and "zero-guard iff COUNT is not a literal" both fail.  A compound
COUNT `(+ 1 2)` — not a literal — crashes with a `TypeError` (the source
subscripts the parser's `Pair` object in `starts_with_decimal_digit`) and
emits no loop; the digit-led non-number `5x` — not a literal either —
crashes in `to_number` with a `ValueError`; and the negative literal `-3`
gets the zero-guard (`JZ L101`) although it is a literal. -/
theorem cg_shift_count_kinds_cex :
    cg_form 9 (listS [.atom (">>"), .atom ("V"),
        listS [.atom ("+"), .atom ("1"), .atom ("2")]]) DD_HL CD_NEXT
        { assembly_listing := [], globals := ["V"], next_label := 99 } =
      .error ("TypeError: object is not subscriptable") ∧
    cg_form 9 (listS [.atom (">>"), .atom ("V"), .atom ("5x")]) DD_HL CD_NEXT
        { assembly_listing := [], globals := ["V"], next_label := 99 } =
      .error ("ValueError: invalid literal for int") ∧
    cg_form 9 (listS [.atom (">>"), .atom ("V"), .atom ("-3")]) DD_HL CD_NEXT
        { assembly_listing := [], globals := ["V"], next_label := 99 } =
      .ok { assembly_listing := ["    LD     HL,(V)", "    LD     B,-3", "    LD     A,B",
              "    OR     A,A", "    JZ     L101", "L100:", "    SRL    H", "    RL     L",
              "    DJNZ   L100", "L101:"],
            globals := ["V"], next_label := 101 } ∧
    ("    JZ     L101") ∈ (["    LD     HL,(V)", "    LD     B,-3", "    LD     A,B",
        "    OR     A,A", "    JZ     L101", "L100:", "    SRL    H", "    RL     L",
        "    DJNZ   L100", "L101:"] : List String) := by
  exact ⟨rfl, rfl, rfl, by decide⟩

/-- C5 (amended): the `(>> EXPR COUNT)` generator for an atomic COUNT
token.  Conjunct 1: dispatch (the form reaches `cg_shift_right_logical`
unchanged when `dd ≠ ZFLAG`).  Conjunct 2, for a digit-led count that
`to_number` parses to `n`: value `0` emits no shift instructions (operand
generation is followed directly by the `cd` realization); values up to `4`
emit exactly `n` unrolled `SRL H; RL L` pairs (`emit_srl_rl`); values above
`4` emit the `DJNZ` loop with no zero-guard.  Conjunct 3: a count *not*
starting with a decimal digit — a symbol, but also a negative literal such
as `-3` — emits the count into `B`, the three-line zero-guard
`LD A,B; OR A,A; JZ Lskip`, the `DJNZ` loop, and the skip label.
Conjunct 4: a compound COUNT raises the `TypeError` from subscripting the
parser's `Pair`, emitting nothing.  Conjunct 5: a digit-led count that
`to_number` cannot parse (such as `5x`) propagates that error. -/
theorem cg_shift_right_unrolling (fuel : Nat) (E : SExpr) (t : String)
    (dd : Nat) (cd : Cd) (s : CState) :
    (dd ≠ DD_ZFLAG →
      cg_form (fuel+1) (listS [.atom (">>"), E, .atom t]) dd cd s =
        cg_shift_right_logical fuel (listS [.atom (">>"), E, .atom t]) dd cd s) ∧
    (starts_with_decimal_digit t = true →
      ∀ n : Int, to_number t = .ok (some n) →
        ((n = 0 →
          cg_shift_right_logical (fuel+1) (listS [.atom (">>"), E, .atom t]) dd cd s =
            (cg_form fuel E DD_HL CD_NEXT s).bind (cg_goto cd)) ∧
         (n ≤ 4 →
          cg_shift_right_logical (fuel+1) (listS [.atom (">>"), E, .atom t]) dd cd s =
            (cg_form fuel E DD_HL CD_NEXT s).bind (fun s1 =>
              cg_goto cd (emit_srl_rl n.toNat s1))) ∧
         (4 < n →
          cg_shift_right_logical (fuel+1) (listS [.atom (">>"), E, .atom t]) dd cd s =
            (cg_form fuel E DD_HL CD_NEXT s).bind (fun s1 =>
              (cg_form fuel (.atom t) DD_B CD_NEXT
                  { s1 with next_label := s1.next_label + 1 }).bind (fun s2 =>
                cg_goto cd (asm .none ("DJNZ") (some ("L" ++ toString (s1.next_label + 1)))
                  (asm .none ("RL") (some ("L"))
                    (asm (.int (s1.next_label + 1)) ("SRL") (some ("H")) s2)))))))) ∧
    (starts_with_decimal_digit t = false → t ≠ "" →
      cg_shift_right_logical (fuel+1) (listS [.atom (">>"), E, .atom t]) dd cd s =
        (cg_form fuel E DD_HL CD_NEXT s).bind (fun s1 =>
          (cg_form fuel (.atom t) DD_B CD_NEXT
              { s1 with next_label := s1.next_label + 1 }).bind (fun s2 =>
            cg_goto cd (cg_emit_label (.int (s2.next_label + 1))
              (asm .none ("DJNZ") (some ("L" ++ toString (s1.next_label + 1)))
                (asm .none ("RL") (some ("L"))
                  (asm (.int (s1.next_label + 1)) ("SRL") (some ("H"))
                    (asm .none ("JZ") (some ("L" ++ toString (s2.next_label + 1)))
                      (asm .none ("OR") (some ("A,A"))
                        (asm .none ("LD") (some ("A,B"))
                          { s2 with next_label := s2.next_label + 1 })))))))))) ∧
    (∀ a b : SExpr,
      cg_shift_right_logical (fuel+1) (listS [.atom (">>"), E, .pair a b]) dd cd s =
        .error ("TypeError: object is not subscriptable")) ∧
    (∀ msg : String, starts_with_decimal_digit t = true → to_number t = .error msg →
      cg_shift_right_logical (fuel+1) (listS [.atom (">>"), E, .atom t]) dd cd s =
        .error msg) := by
  refine ⟨fun hdd => (if_neg hdd).trans rfl, fun hsw n hm => ⟨?_, ?_, ?_⟩, fun hsw ht => ?_,
    fun a b => rfl, fun msg hsw hm => ?_⟩
  · intro h0
    subst h0
    have hne : (t.data = []) = False := eq_false (swdd_true_ne_nil hsw)
    show run (fuel+1) (.shift_right_logical (listS [.atom (">>"), E, .atom t]) dd cd) s = _
    simp [run, listS, SExpr.cdr, SExpr.car, bindE_ok, bindE_error, hne, hsw, hm, cg_form,
      emit_srl_rl]
    rfl
  · intro hn
    have hne : (t.data = []) = False := eq_false (swdd_true_ne_nil hsw)
    have h4 : (n > 4) = False := eq_false (by omega)
    show run (fuel+1) (.shift_right_logical (listS [.atom (">>"), E, .atom t]) dd cd) s = _
    simp [run, listS, SExpr.cdr, SExpr.car, bindE_ok, bindE_error, hne, hsw, hm, h4, cg_form]
    rfl
  · intro hn
    have hne : (t.data = []) = False := eq_false (swdd_true_ne_nil hsw)
    have h4 : (n > 4) = True := eq_true hn
    show run (fuel+1) (.shift_right_logical (listS [.atom (">>"), E, .atom t]) dd cd) s = _
    simp [run, listS, SExpr.cdr, SExpr.car, bindE_ok, bindE_error, hne, hsw, hm, h4, cg_form,
      make_label]
    rfl
  · have hne : (t.data = []) = False := eq_false (string_ne_empty_data ht)
    show run (fuel+1) (.shift_right_logical (listS [.atom (">>"), E, .atom t]) dd cd) s = _
    simp [run, listS, SExpr.cdr, SExpr.car, bindE_ok, bindE_error, hne, hsw, cg_form,
      make_label]
    rfl
  · have hne : (t.data = []) = False := eq_false (swdd_true_ne_nil hsw)
    show run (fuel+1) (.shift_right_logical (listS [.atom (">>"), E, .atom t]) dd cd) s = _
    simp [run, listS, SExpr.cdr, SExpr.car, bindE_ok, bindE_error, hne, hsw, hm]

/-- C5 witness: `(>> V 3)` with `V` declared unrolls into exactly three
`SRL H; RL L` pairs. -/
theorem cg_shift_right_unrolling_witness :
    cg_form 5 (listS [.atom (">>"), .atom ("V"), .atom ("3")]) DD_HL CD_NEXT
        { assembly_listing := [], globals := ["V"], next_label := 99 } =
      .ok { assembly_listing := ["    LD     HL,(V)", "    SRL    H", "    RL     L",
              "    SRL    H", "    RL     L", "    SRL    H", "    RL     L"],
            globals := ["V"], next_label := 99 } := by
  have h1 := (cg_shift_right_unrolling 4 (.atom ("V")) ("3") DD_HL CD_NEXT
    { assembly_listing := [], globals := ["V"], next_label := 99 }).1 (by decide)
  have h2 := ((cg_shift_right_unrolling 3 (.atom ("V")) ("3") DD_HL CD_NEXT
    { assembly_listing := [], globals := ["V"], next_label := 99 }).2.1
    (by decide) 3 (by decide)).2.1 (by decide)
  exact h1.trans (h2.trans (by rfl))

/-- C6 counterexample: the token `-foo` (leading `-`, no digit after it) is
*not* treated as a symbol reference: declared or not, generating it raises
the `TypeError` from negating `to_number`'s `None`, never the claimed
`Symbol not declared` error. -/
theorem token_minus_symbol_cex :
    cg_form 5 (.atom ("-foo")) DD_HL CD_NEXT initial_state =
      .error ("TypeError: bad operand type for unary minus: NoneType") ∧
    cg_form 5 (.atom ("-foo")) DD_HL CD_NEXT
        { assembly_listing := [], globals := ["-foo"], next_label := 99 } =
      .error ("TypeError: bad operand type for unary minus: NoneType") ∧
    cg_form 5 (.atom ("-foo")) DD_HL CD_NEXT initial_state ≠
      .error ("Symbol not declared: -foo") := by
  exact ⟨rfl, rfl, by decide⟩

/-- C6 (amended): atom classification in `cg_form`, for `dd ≠ ZFLAG`.
A token headed by `-` is handed to `to_number` on its tail: if a number `v`
comes back (in particular whenever a decimal digit follows the `-`) the
token is a negative literal loaded as `-v`; if `None` comes back (tokens
like `-foo`) the generator raises a `TypeError` — it does *not* fall
through to symbol lookup.  A token starting with neither a digit nor `-`
is a symbol reference: load the global if declared, else the
`Symbol not declared` error. -/
theorem token_classification_amended (fuel : Nat) (dd : Nat) (cd : Cd) (s : CState)
    (hdd : dd ≠ DD_ZFLAG) :
    (∀ (tl : List Char) (v : Int), to_number (String.mk tl) = .ok (some v) →
      cg_form (fuel+1) (.atom (String.mk ('-' :: tl))) dd cd s =
        (if dd ∈ [DD_A, DD_B, DD_BC, DD_DE, DD_HL] then
          (cg_ld16 dd (toString (-v)) s).bind (cg_goto cd)
        else Except.error ("Unknown data destination: " ++ toString dd))) ∧
    (∀ tl : List Char, to_number (String.mk tl) = .ok none →
      cg_form (fuel+1) (.atom (String.mk ('-' :: tl))) dd cd s =
        Except.error ("TypeError: bad operand type for unary minus: NoneType")) ∧
    (∀ (c : Char) (tl : List Char),
      starts_with_decimal_digit (String.mk (c :: tl)) = false → c ≠ '-' →
      cg_form (fuel+1) (.atom (String.mk (c :: tl))) dd cd s =
        (if String.mk (c :: tl) ∈ s.globals then
          (cg_ld16_gv dd (String.mk (c :: tl)) s).bind (cg_goto cd)
        else Except.error ("Symbol not declared: " ++ String.mk (c :: tl)))) := by
  refine ⟨fun tl v hm => ?_, fun tl hm => ?_, fun c tl h1 h2 => ?_⟩
  · have step : cg_form (fuel+1) (.atom (String.mk ('-' :: tl))) dd cd s =
        (to_number (String.mk tl)).bind (fun m =>
          match m with
          | none => Except.error ("TypeError: bad operand type for unary minus: NoneType")
          | some v =>
            if dd ∈ [DD_A, DD_B, DD_BC, DD_DE, DD_HL] then
              (cg_ld16 dd (toString (-v)) s).bind (cg_goto cd)
            else Except.error ("Unknown data destination: " ++ toString dd)) :=
      (if_neg hdd).trans rfl
    rw [step, hm]
    rfl
  · have step : cg_form (fuel+1) (.atom (String.mk ('-' :: tl))) dd cd s =
        (to_number (String.mk tl)).bind (fun m =>
          match m with
          | none => Except.error ("TypeError: bad operand type for unary minus: NoneType")
          | some v =>
            if dd ∈ [DD_A, DD_B, DD_BC, DD_DE, DD_HL] then
              (cg_ld16 dd (toString (-v)) s).bind (cg_goto cd)
            else Except.error ("Unknown data destination: " ++ toString dd)) :=
      (if_neg hdd).trans rfl
    rw [step, hm]
    rfl
  · have step : cg_form (fuel+1) (.atom (String.mk (c :: tl))) dd cd s =
        (if starts_with_decimal_digit (String.mk (c :: tl)) then
          (to_number (String.mk (c :: tl))).bind (fun n =>
            if dd ∈ [DD_A, DD_B, DD_BC, DD_DE, DD_HL] then
              (cg_ld16 dd (pyShowOptInt n) s).bind (cg_goto cd)
            else Except.error ("Unknown data destination: " ++ toString dd))
        else if c = '-' then
          (to_number (String.mk ((c :: tl).drop 1))).bind (fun m =>
            match m with
            | none => Except.error ("TypeError: bad operand type for unary minus: NoneType")
            | some v =>
              if dd ∈ [DD_A, DD_B, DD_BC, DD_DE, DD_HL] then
                (cg_ld16 dd (toString (-v)) s).bind (cg_goto cd)
              else Except.error ("Unknown data destination: " ++ toString dd))
        else if String.mk (c :: tl) ∈ s.globals then
          (cg_ld16_gv dd (String.mk (c :: tl)) s).bind (cg_goto cd)
        else Except.error ("Symbol not declared: " ++ String.mk (c :: tl))) :=
      (if_neg hdd).trans rfl
    rw [step, h1, if_neg h2]
    rfl

/-- C6 witness: `-12` is a negative literal; `-foo` raises the `TypeError`;
`w` (undeclared) raises `Symbol not declared`. -/
theorem token_classification_amended_witness :
    cg_form 1 (.atom ("-12")) DD_HL CD_NEXT initial_state =
      .ok { assembly_listing := ["    LD     HL,-12"], globals := [], next_label := 99 } ∧
    cg_form 1 (.atom ("-foo")) DD_HL CD_NEXT initial_state =
      .error ("TypeError: bad operand type for unary minus: NoneType") ∧
    cg_form 1 (.atom ("w")) DD_HL CD_NEXT initial_state =
      .error ("Symbol not declared: w") := by
  have h := token_classification_amended 0 DD_HL CD_NEXT initial_state (by decide)
  refine ⟨?_, ?_, ?_⟩
  · exact (h.1 ['1', '2'] 12 (by decide)).trans (by rfl)
  · exact h.2.1 ['f', 'o', 'o'] (by decide)
  · exact (h.2.2 'w' [] (by decide) (by decide)).trans (by rfl)

/-- C7: `(int16 X)` with `X` new appends exactly the lines `X:` and
`␣␣␣␣DEFW␣␣␣0` (and records `X`), for *every* `cd` — in particular no `RET`
is emitted even under `cd = RET`; `(int16 X …)` with `X` already declared
raises the redeclaration error, as does `(sub X …)`. -/
theorem int16_sub_declaration (fuel : Nat) (X : String) (dd : Nat) (cd : Cd)
    (rest stmts : SExpr) (s : CState) (hdd : dd ≠ DD_ZFLAG) :
    (X ∉ s.globals →
      cg_form (fuel+1) (listS [.atom ("int16"), .atom X]) dd cd s =
        .ok { s with globals := s.globals ++ [X],
                     assembly_listing := s.assembly_listing ++ [X ++ ":", "    DEFW   0"] }) ∧
    (X ∈ s.globals →
      cg_form (fuel+1) (.pair (.atom ("int16")) (.pair (.atom X) rest)) dd cd s =
        .error ("Variable already defined: " ++ X)) ∧
    (X ∈ s.globals →
      cg_form (fuel+2) (.pair (.atom ("sub")) (.pair (.atom X) stmts)) dd cd s =
        .error ("Symbol already defined: " ++ X)) := by
  refine ⟨fun hX => ?_, fun hX => ?_, fun hX => ?_⟩
  · refine (if_neg hdd).trans ((if_neg hX).trans ?_)
    rw [show s.assembly_listing ++ [X ++ ":", "    DEFW   0"] =
        (s.assembly_listing ++ [X ++ ":"]) ++ ["    DEFW   0"] from
      (List.append_assoc s.assembly_listing [X ++ ":"] ["    DEFW   0"]).symm]
    rfl
  · exact (if_neg hdd).trans ((if_pos hX).trans rfl)
  · exact (if_neg hdd).trans ((if_pos hX).trans rfl)

/-- C7 witness: a fresh `X` declares and emits the two lines even under
`cd = RET`; redeclaring `X` by `int16` or `sub` errors. -/
theorem int16_sub_declaration_witness :
    cg_form 1 (listS [.atom ("int16"), .atom ("X")]) DD_HL CD_RET initial_state =
      .ok { assembly_listing := ["X:", "    DEFW   0"], globals := ["X"], next_label := 99 } ∧
    cg_form 1 (listS [.atom ("int16"), .atom ("X")]) DD_HL CD_RET
        { assembly_listing := [], globals := ["X"], next_label := 99 } =
      .error ("Variable already defined: X") ∧
    cg_form 2 (listS [.atom ("sub"), .atom ("X"), .atom ("5")]) DD_HL CD_RET
        { assembly_listing := [], globals := ["X"], next_label := 99 } =
      .error ("Symbol already defined: X") := by
  refine ⟨?_, ?_, ?_⟩
  · exact ((int16_sub_declaration 0 ("X") DD_HL CD_RET .nil .nil initial_state
      (by decide)).1 (by decide)).trans (by rfl)
  · exact ((int16_sub_declaration 0 ("X") DD_HL CD_RET .nil .nil
      { assembly_listing := [], globals := ["X"], next_label := 99 }
      (by decide)).2.1 (by decide)).trans (by rfl)
  · exact ((int16_sub_declaration 0 ("X") DD_HL CD_RET .nil
      (listS [.atom ("5")])
      { assembly_listing := [], globals := ["X"], next_label := 99 }
      (by decide)).2.2 (by decide)).trans (by rfl)

/-- C9: assignment never consults the symbol table for its target: for any
name `V` — declared or not — `(set V EXPR)` generates `EXPR` into `HL`,
emits `LD (V),HL`, moves `HL` into `dd` and realizes `cd`; the right-hand
side never mentions whether `V` is in `s.globals`, so no error can arise on
account of `V` (only `EXPR`'s own symbols are checked during its
generation). -/
theorem set_var_target_unchecked (fuel : Nat) (V : String) (E : SExpr) (dd : Nat)
    (cd : Cd) (s : CState) (hdd : dd ≠ DD_ZFLAG) :
    cg_form (fuel+2) (listS [.atom ("set"), .atom V, E]) dd cd s =
      (cg_form fuel E DD_HL CD_NEXT s).bind (fun s1 =>
        (cg_ld16_r16 dd DD_HL (asm .none ("LD") (some ("(" ++ V ++ "),HL")) s1)).bind
          (cg_goto cd)) := by
  exact (if_neg hdd).trans rfl

/-- C9 witness: assigning to the undeclared `q` raises nothing and stores
through `(q)`. -/
theorem set_var_target_unchecked_witness :
    cg_form 3 (listS [.atom ("set"), .atom ("q"), .atom ("5")]) DD_HL CD_NEXT initial_state =
      .ok { assembly_listing := ["    LD     HL,5", "    LD     (q),HL"],
            globals := [], next_label := 99 } := by
  have h := set_var_target_unchecked 1 ("q") (.atom ("5")) DD_HL CD_NEXT initial_state
    (by decide)
  exact h.trans (by rfl)
